import Mathlib

/-!
# mmctl: `post create`, `post list` and the status map

A shallow embedding of `commands/post.go` and of `StatusMapToInterfaceMap`
from the vendored `model/status.go`.

The commands talk to a remote server through `client.Client`. The server is
an explicit state `σ` that every client call reads and may change, and every
step a command takes on the outside world (a client call with what it
returned, a printed line) is appended to a trace. Claims about which calls a
command makes, how often and in which order, are claims about that trace.
-/

set_option autoImplicit false
set_option linter.dupNamespace false

namespace Mmctl

/-! ## Data model -/

/-- The Go pair `(value, error)` of a call that either yields a value or an
error, the error represented by its message. -/
inductive GoResult (α : Type) where
  | ok (val : α)
  | err (msg : String)
deriving DecidableEq, Repr

/-- Modelled from the spec: a post (message text, channel identifier, optional
thread root). The vendored `model.Post` is declared outside the sources at
hand; these are the fields that `post.go` reads or writes. -/
structure Post where
  Id : String
  UserId : String
  ChannelId : String
  RootId : String
  Message : String
deriving DecidableEq, Repr

/-- Modelled from the spec: a channel reference. The vendored `model.Channel` is
declared outside the sources at hand; `Id` is the field that `post.go` reads. -/
structure Channel where
  Id : String
deriving DecidableEq, Repr

/-- Modelled from the spec: a user, whose username the cache holds under the
user id. The vendored `model.User` is declared outside the sources at hand;
`Username` is the field that `post.go` reads. -/
structure User where
  Username : String
deriving DecidableEq, Repr

/-- Modelled from the spec: the posts of a channel as the server returns them.
The vendored `model.PostList` is declared outside the sources at hand; it is
represented by the slice its `ToSlice` method returns, which is all that
`post.go` reads from it. -/
structure PostList where
  ToSlice : List Post
deriving DecidableEq, Repr

/-- A Go `map[string]string`: an association list read from the front, so that
a later write to a key shadows an earlier one. -/
abbrev StringMap := List (String × String)

/-- The Go map read `m[k]`, which yields the zero value `""` for a missing key. -/
def StringMap.get (m : StringMap) (k : String) : String :=
  (m.lookup k).getD ""

/-- The Go map write `m[k] = v`. -/
def StringMap.set (m : StringMap) (k v : String) : StringMap :=
  (k, v) :: m

/-- Every step a command takes on the outside world, with what it returned. -/
inductive Event where
  | getPost (postId etag : String) (res : GoResult Post)
  | channelLookup (arg : String) (res : Option Channel)
  | toJSON (post : Post) (res : GoResult String)
  | doAPIPost (url data : String) (res : GoResult Unit)
  | getUser (userId etag : String) (res : GoResult User)
  | getPostsForChannel (channelId : String) (page perPage : Int) (etag : String)
      (collapsedThreads : Bool) (res : GoResult PostList)
  | setSingle (single : Bool)
  | printT (tpl : String) (post : Post)
  | println (line : String)
  | initWebSocketClient (err : Option String)
  | wsConnect (appErr : Option String)
  | wsListen
deriving DecidableEq, Repr

/-- The outside world: the server's state and the trace of steps so far. -/
structure World (σ : Type) where
  srv : σ
  trace : List Event

/-- The world at the start of a command invocation. -/
def World.init {σ : Type} (s : σ) : World σ := ⟨s, []⟩

/-- Appends one step to the trace and installs the server state it left. -/
def World.step {σ : Type} (w : World σ) (s : σ) (e : Event) : World σ :=
  ⟨s, w.trace ++ [e]⟩

/-- The methods of `client.Client` that `post.go` calls. The `*model.Response`
each returns is dropped by every caller and is left out. -/
structure Client (σ : Type) where
  GetPost : String → String → σ → GoResult Post × σ
  GetUser : String → String → σ → GoResult User × σ
  GetPostsForChannel : String → Int → Int → String → Bool → σ → GoResult PostList × σ
  DoAPIPost : String → String → σ → GoResult Unit × σ

/-- What `post.go` uses besides the client and does not define itself:
`getChannelFromChannelArg` and `InitWebSocketClient` of the same package, the
websocket client's `Connect`, `model.Post.ToJSON` and `json.Unmarshal` into a
`*model.Post` (which JSON `null` sets to nil, hence the `Option`). -/
structure Env (σ : Type) where
  c : Client σ
  getChannelFromChannelArg : String → σ → Option Channel × σ
  ToJSON : Post → GoResult String
  Unmarshal : String → GoResult (Option Post)
  InitWebSocketClient : σ → Option String × σ
  Connect : σ → Option String × σ

/-- The flags of `post create`. -/
structure CreateFlags where
  message : String
  replyTo : String
deriving DecidableEq, Repr

/-- The flags of `post list`. -/
structure ListFlags where
  number : Int
  showIds : Bool
  follow : Bool
deriving DecidableEq, Repr

/-! ## `post create` -/

/-- Lines 74-94 of `postCreateCmdF`: the channel lookup, the construction of the
post and its submission, with `replyTo` as the reply-to block left it. -/
def submitPost {σ : Type} (env : Env σ) (message arg replyTo : String)
    (w : World σ) : Option String × World σ :=
  let l := env.getChannelFromChannelArg arg w.srv
  let w1 := w.step l.2 (Event.channelLookup arg l.1)
  match l.1 with
  | none => (some ("Unable to find channel \x27" ++ arg ++ "\x27"), w1)
  | some channel =>
    let post : Post :=
      { Id := "", UserId := "", ChannelId := channel.Id, Message := message, RootId := replyTo }
    let url := "/posts" ++ "?set_online=false"
    let j := env.ToJSON post
    let w2 := w1.step w1.srv (Event.toJSON post j)
    match j with
    | GoResult.err e => (some ("could not decode post: " ++ e), w2)
    | GoResult.ok data =>
      let p := env.c.DoAPIPost url data w2.srv
      let w3 := w2.step p.2 (Event.doAPIPost url data p.1)
      match p.1 with
      | GoResult.err e => (some ("could not create post: " ++ e), w3)
      | GoResult.ok _ => (none, w3)

/-- The function `postCreateCmdF`; `arg` is `args[0]`, the one positional argument
that `cobra.ExactArgs(1)` guarantees. The result is the returned error, `none`
for nil. -/
def postCreateCmdF {σ : Type} (env : Env σ) (flags : CreateFlags) (arg : String)
    (w : World σ) : Option String × World σ :=
  let message := flags.message
  if message = "" then
    (some "message cannot be empty", w)
  else
    let replyTo := flags.replyTo
    if replyTo ≠ "" then
      let r := env.c.GetPost replyTo "" w.srv
      let w1 := w.step r.2 (Event.getPost replyTo "" r.1)
      match r.1 with
      | GoResult.err e => (some e, w1)
      | GoResult.ok replyToPost =>
        if replyToPost.RootId ≠ "" then submitPost env message arg replyToPost.RootId w1
        else submitPost env message arg replyTo w1
    else submitPost env message arg replyTo w

/-! ## `post list` -/

/-- A value of Go type `interface{}` as far as `eventDataToPost` tells values
apart: a string, or anything else. -/
inductive Value where
  | str (s : String)
  | nonString
deriving DecidableEq, Repr

/-- Modelled from the spec: a server-pushed event. The vendored
`model.WebSocketEvent` is declared outside the sources at hand; these are the
parts that `post.go` reads, `EventType()` and `GetData()`, the latter a
`map[string]interface{}` listed in iteration order. -/
structure WebSocketEvent where
  EventType : String
  Data : List (String × Value)
deriving DecidableEq, Repr

/-- Modelled from the spec: the constant `model.WebsocketEventPosted`, the type of
the event the server pushes for a new post, declared outside the sources at
hand. -/
def WebsocketEventPosted : String := "posted"

/-- A computation that may end in a Go run-time panic. -/
inductive Panicking (α : Type) where
  | done (val : α)
  | panic (msg : String)
deriving DecidableEq, Repr

/-- The `range` loop of `eventDataToPost` over the event data: `rawPost` is set
from the `"post"` entry, and the type assertion `v.(string)` panics on a value
that is not a string. -/
def rangeRawPost : List (String × Value) → String → Panicking String
  | [], rawPost => Panicking.done rawPost
  | (k, v) :: rest, rawPost =>
    if k = "post" then
      match v with
      | Value.str s => rangeRawPost rest s
      | Value.nonString =>
        Panicking.panic "interface conversion: interface {} is not string"
    else rangeRawPost rest rawPost

/-- The function `eventDataToPost`. The Go pair `(*model.Post, error)` is kept as
a pair: the post is `none` for nil, the error is `none` for nil. -/
def eventDataToPost {σ : Type} (env : Env σ) (eventData : List (String × Value)) :
    Panicking (Option Post × Option String) :=
  match rangeRawPost eventData "" with
  | Panicking.panic m => Panicking.panic m
  | Panicking.done rawPost =>
    match env.Unmarshal rawPost with
    | GoResult.err e => Panicking.done (none, some e)
    | GoResult.ok post => Panicking.done (post, none)

/-- The state the two printing loops of `postListCmdF` share: the `usernames` map
and the outside world. -/
structure ListState (σ : Type) where
  usernames : StringMap
  world : World σ

/-- The template `printPost` hands to `printer.PrintT`. -/
def postTemplate (post : Post) (username : String) (showIds : Bool) : String :=
  if showIds then
    "\x1b[31m" ++ post.Id ++ "\x1b[0m \x1b[34;1m[" ++ username ++ "]\x1b[0m \x7b\x7b.Message\x7d\x7d"
  else
    "\x1b[34;1m[" ++ username ++ "]\x1b[0m \x7b\x7b.Message\x7d\x7d"

/-- The function `printPost`. -/
def printPost {σ : Type} (env : Env σ) (post : Post) (showIds : Bool)
    (st : ListState σ) : ListState σ :=
  let usernames := st.usernames
  let w := st.world
  let looked : String × StringMap × World σ :=
    if usernames.get post.UserId ≠ "" then
      (usernames.get post.UserId, usernames, w)
    else
      let r := env.c.GetUser post.UserId "" w.srv
      let w1 := w.step r.2 (Event.getUser post.UserId "" r.1)
      match r.1 with
      | GoResult.err _ => (post.UserId, usernames, w1)
      | GoResult.ok user => (user.Username, usernames.set post.UserId user.Username, w1)
  let username := looked.1
  let w2 := looked.2.2
  ⟨looked.2.1, w2.step w2.srv (Event.printT (postTemplate post username showIds) post)⟩

/-- How a run of `postListCmdF` ends as far as it has been observed: it returned
(`none` for nil), it panicked, or it is blocked in the follow loop on the
receive from `ws.EventChannel` after the events received so far. -/
inductive Outcome where
  | returned (err : Option String)
  | panicked (msg : String)
  | blocked
deriving DecidableEq, Repr

/-- The loop `for i := 1; i <= len(posts); i++` of `postListCmdF`, bounded by
`fuel` iterations. The result gives the state reached and tells whether the
loop ran to its end (`none`) or the program panicked (`some`), which indexing
`posts[len(posts)-i]` outside the slice does. -/
def printLoop {σ : Type} (env : Env σ) (posts : List Post) (showIds : Bool) :
    Nat → Nat → ListState σ → Option String × ListState σ
  | 0, _, st => (none, st)
  | fuel + 1, i, st =>
    if i ≤ posts.length then
      match posts[posts.length - i]? with
      | none => (some "index out of range", st)
      | some post => printLoop env posts showIds fuel (i + 1) (printPost env post showIds st)
    else (none, st)

/-- One iteration of the follow loop of `postListCmdF` on a received event. The
result tells whether the loop goes on to the next receive (`none`) or the
program panics (`some`), and gives the state reached. -/
def followStep {σ : Type} (env : Env σ) (channel : Channel) (showIds : Bool)
    (event : WebSocketEvent) (st : ListState σ) : Option String × ListState σ :=
  if event.EventType = WebsocketEventPosted then
    match eventDataToPost env event.Data with
    | Panicking.panic m => (some m, st)
    | Panicking.done (post, err) =>
      let st1 : ListState σ :=
        match err with
        | some e =>
          ⟨st.usernames, st.world.step st.world.srv
            (Event.println ("Error parsing incoming post: " ++ e))⟩
        | none => st
      match post with
      | none => (some "invalid memory address or nil pointer dereference", st1)
      | some post =>
        if post.ChannelId = channel.Id then (none, printPost env post showIds st1)
        else (none, st1)
  else (none, st)

/-- The follow loop `for { event := <-ws.EventChannel ... }` on the events
received so far. -/
def followLoop {σ : Type} (env : Env σ) (channel : Channel) (showIds : Bool) :
    List WebSocketEvent → ListState σ → Outcome × ListState σ
  | [], st => (Outcome.blocked, st)
  | event :: rest, st =>
    match followStep env channel showIds event st with
    | (some m, st1) => (Outcome.panicked m, st1)
    | (none, st1) => followLoop env channel showIds rest st1

/-- The function `postListCmdF`; `arg` is `args[0]` and `events` are the events
that arrive on `ws.EventChannel` while the run is observed. -/
def postListCmdF {σ : Type} (env : Env σ) (flags : ListFlags) (arg : String)
    (events : List WebSocketEvent) (w : World σ) : Outcome × ListState σ :=
  let w0 := w.step w.srv (Event.setSingle true)
  let l := env.getChannelFromChannelArg arg w0.srv
  let w1 := w0.step l.2 (Event.channelLookup arg l.1)
  match l.1 with
  | none => (Outcome.returned (some ("Unable to find channel \x27" ++ arg ++ "\x27")), ⟨[], w1⟩)
  | some channel =>
    let number := flags.number
    let showIds := flags.showIds
    let follow := flags.follow
    let g := env.c.GetPostsForChannel channel.Id 0 number "" false w1.srv
    let w2 := w1.step g.2 (Event.getPostsForChannel channel.Id 0 number "" false g.1)
    match g.1 with
    | GoResult.err e => (Outcome.returned (some e), ⟨[], w2⟩)
    | GoResult.ok postList =>
      let posts := postList.ToSlice
      let usernames : StringMap := []
      match printLoop env posts showIds posts.length 1 ⟨usernames, w2⟩ with
      | (some m, st) => (Outcome.panicked m, st)
      | (none, st) =>
        if follow then
          let i := env.InitWebSocketClient st.world.srv
          let w3 := st.world.step i.2 (Event.initWebSocketClient i.1)
          match i.1 with
          | some e => (Outcome.returned (some e), ⟨st.usernames, w3⟩)
          | none =>
            let k := env.Connect w3.srv
            let w4 := w3.step k.2 (Event.wsConnect k.1)
            match k.1 with
            | some e => (Outcome.returned (some e), ⟨st.usernames, w4⟩)
            | none =>
              let w5 := w4.step w4.srv Event.wsListen
              followLoop env channel showIds events ⟨st.usernames, w5⟩
        else (Outcome.returned none, st)

/-! ## `model/status.go` -/

/-- The constant `StatusOffline`. -/
def StatusOffline : String := "offline"

/-- The fields of `model.Status` that `StatusMapToInterfaceMap` reads. -/
structure Status where
  UserId : String
  Status : String
deriving DecidableEq, Repr

/-- The function `StatusMapToInterfaceMap`. The argument lists the entries of the
Go map in the order the `range` loop visits them; the values written to the
result are all strings, so the result is a `StringMap`. -/
def StatusMapToInterfaceMap (statusMap : List (String × Status)) : StringMap :=
  statusMap.foldl
    (fun interfaceMap kv =>
      if kv.2.Status ≠ StatusOffline then interfaceMap.set kv.2.UserId kv.2.Status
      else interfaceMap)
    []

/-! ## A small server for the examples -/

/-- A sample client over a server whose state counts the requests it served. It
knows the posts `p1` (a thread root) and `p2` (a reply to `p1`), and the user
`u2`, named alice; every other lookup fails. -/
def demoClient : Client Nat where
  GetPost := fun postId _ n =>
    if postId = "p1" then
      (GoResult.ok ⟨"p1", "u2", "c1", "", "first"⟩, n + 1)
    else if postId = "p2" then
      (GoResult.ok ⟨"p2", "u2", "c1", "p1", "second"⟩, n + 1)
    else (GoResult.err "post not found", n + 1)
  GetUser := fun userId _ n =>
    if userId = "u2" then (GoResult.ok ⟨"alice"⟩, n + 1)
    else (GoResult.err "user not found", n + 1)
  GetPostsForChannel := fun channelId _ _ _ _ n =>
    if channelId = "c1" then
      (GoResult.ok ⟨[⟨"p1", "u2", "c1", "", "first"⟩, ⟨"p2", "u2", "c1", "p1", "second"⟩]⟩, n + 1)
    else if channelId = "c2" then
      (GoResult.ok ⟨[⟨"p3", "u1", "c2", "", "third"⟩, ⟨"p4", "u1", "c2", "", "fourth"⟩]⟩, n + 1)
    else (GoResult.err "channel not found", n + 1)
  DoAPIPost := fun _ _ n => (GoResult.ok (), n + 1)

/-- A sample environment around `demoClient`: the channels `team:town` and
`team:side` resolve, `ToJSON` always succeeds, and the decoder fails on the
empty input, yields nil on `null` and otherwise yields a post by `u2` in the
channel the input names. -/
def demoEnv : Env Nat where
  c := demoClient
  getChannelFromChannelArg := fun arg n =>
    if arg = "team:town" then (some ⟨"c1"⟩, n + 1)
    else if arg = "team:side" then (some ⟨"c2"⟩, n + 1)
    else (none, n + 1)
  ToJSON := fun post =>
    GoResult.ok (post.ChannelId ++ "|" ++ post.RootId ++ "|" ++ post.Message)
  Unmarshal := fun raw =>
    if raw = "" then GoResult.err "unexpected end of JSON input"
    else if raw = "null" then GoResult.ok none
    else GoResult.ok (some ⟨"p9", "u2", raw, "", "hello"⟩)
  InitWebSocketClient := fun n => (none, n)
  Connect := fun n => (none, n)

/-! ## Reading a trace -/

/-- Whether a step is a `DoAPIPost` call. -/
def Event.isDoAPIPost : Event → Bool
  | Event.doAPIPost _ _ _ => true
  | _ => false

/-- Whether a step is a `GetUser` call for the user id `u`. -/
def Event.isGetUserFor (u : String) : Event → Bool
  | Event.getUser userId _ _ => decide (userId = u)
  | _ => false

/-- Whether a step is a `GetUser` call for the user id `u` that left nothing in
the cache to find: the call failed, or it returned an empty username. -/
def Event.isUncachedGetUserFor (u : String) : Event → Bool
  | Event.getUser userId _ (GoResult.err _) => decide (userId = u)
  | Event.getUser userId _ (GoResult.ok user) => decide (userId = u) && decide (user.Username = "")
  | _ => false

/-- The posts a trace prints, in the order it prints them. -/
def printedPosts (trace : List Event) : List Post :=
  trace.filterMap fun e =>
    match e with
    | Event.printT _ post => some post
    | _ => none

/-- Printing a sequence of posts with `printPost`, one after the other, on a
shared state. -/
def printAll {σ : Type} (env : Env σ) (showIds : Bool) (posts : List Post)
    (st : ListState σ) : ListState σ :=
  posts.foldl (fun st post => printPost env post showIds st) st

/-! ## Theorems: `post create` -/

/-- C2: when the `--message` flag is empty, `postCreateCmdF` returns the error
"message cannot be empty" and takes no step on the outside world: the world,
trace and server state alike, is returned as it was, whatever `--reply-to`,
the client and the channel argument are. -/
theorem postCreateCmdF_empty_message {σ : Type} (env : Env σ) (flags : CreateFlags)
    (arg : String) (w : World σ) (h : flags.message = "") :
    postCreateCmdF env flags arg w = (some "message cannot be empty", w) := by
  simp [postCreateCmdF, h]

/-- Witness of C2 on the sample server: an empty message with a reply-to id set. -/
theorem postCreateCmdF_empty_message_witness :
    (⟨"", "p2"⟩ : CreateFlags).message = ""
      ∧ postCreateCmdF demoEnv ⟨"", "p2"⟩ "team:town" (World.init 0)
        = (some "message cannot be empty", World.init 0) :=
  ⟨rfl, postCreateCmdF_empty_message demoEnv ⟨"", "p2"⟩ "team:town" (World.init 0) rfl⟩

/-! ### What `submitPost` does, by what the environment returns -/

/-- The function `submitPost` when the channel lookup returns nil. -/
theorem submitPost_not_found {σ : Type} (env : Env σ) (message arg replyTo : String)
    (w : World σ) (hl : (env.getChannelFromChannelArg arg w.srv).1 = none) :
    submitPost env message arg replyTo w
      = (some ("Unable to find channel \x27" ++ arg ++ "\x27"),
          ⟨(env.getChannelFromChannelArg arg w.srv).2,
            w.trace ++ [Event.channelLookup arg none]⟩) := by
  simp [submitPost, World.step, hl]

/-- The function `submitPost` when the channel is found and `ToJSON` fails. -/
theorem submitPost_encode_failed {σ : Type} (env : Env σ) (message arg replyTo : String)
    (w : World σ) (channel : Channel) (e : String)
    (hl : (env.getChannelFromChannelArg arg w.srv).1 = some channel)
    (hj : env.ToJSON { Id := "", UserId := "", ChannelId := channel.Id,
                       Message := message, RootId := replyTo } = GoResult.err e) :
    submitPost env message arg replyTo w
      = (some ("could not decode post: " ++ e),
          ⟨(env.getChannelFromChannelArg arg w.srv).2,
            w.trace ++ [Event.channelLookup arg (some channel),
              Event.toJSON { Id := "", UserId := "", ChannelId := channel.Id,
                             Message := message, RootId := replyTo } (GoResult.err e)]⟩) := by
  simp [submitPost, World.step, hl, hj]

/-- The function `submitPost` when the post is encoded and `DoAPIPost` fails. -/
theorem submitPost_rejected {σ : Type} (env : Env σ) (message arg replyTo : String)
    (w : World σ) (channel : Channel) (data e : String)
    (hl : (env.getChannelFromChannelArg arg w.srv).1 = some channel)
    (hj : env.ToJSON { Id := "", UserId := "", ChannelId := channel.Id,
                       Message := message, RootId := replyTo } = GoResult.ok data)
    (hp : (env.c.DoAPIPost "/posts?set_online=false" data
            (env.getChannelFromChannelArg arg w.srv).2).1 = GoResult.err e) :
    submitPost env message arg replyTo w
      = (some ("could not create post: " ++ e),
          ⟨(env.c.DoAPIPost "/posts?set_online=false" data
              (env.getChannelFromChannelArg arg w.srv).2).2,
            w.trace ++ [Event.channelLookup arg (some channel),
              Event.toJSON { Id := "", UserId := "", ChannelId := channel.Id,
                             Message := message, RootId := replyTo } (GoResult.ok data),
              Event.doAPIPost "/posts?set_online=false" data (GoResult.err e)]⟩) := by
  have hp2 : (env.c.DoAPIPost ("/posts" ++ "?set_online=false") data
      (env.getChannelFromChannelArg arg w.srv).2).1 = GoResult.err e := hp
  have hurl : "/posts" ++ "?set_online=false" = "/posts?set_online=false" := by decide
  simp only [submitPost, World.step, hl, hj, hp2]
  simp [hurl]

/-- The function `submitPost` when `DoAPIPost` accepts the post. -/
theorem submitPost_accepted {σ : Type} (env : Env σ) (message arg replyTo : String)
    (w : World σ) (channel : Channel) (data : String)
    (hl : (env.getChannelFromChannelArg arg w.srv).1 = some channel)
    (hj : env.ToJSON { Id := "", UserId := "", ChannelId := channel.Id,
                       Message := message, RootId := replyTo } = GoResult.ok data)
    (hp : (env.c.DoAPIPost "/posts?set_online=false" data
            (env.getChannelFromChannelArg arg w.srv).2).1 = GoResult.ok ()) :
    submitPost env message arg replyTo w
      = (none,
          ⟨(env.c.DoAPIPost "/posts?set_online=false" data
              (env.getChannelFromChannelArg arg w.srv).2).2,
            w.trace ++ [Event.channelLookup arg (some channel),
              Event.toJSON { Id := "", UserId := "", ChannelId := channel.Id,
                             Message := message, RootId := replyTo } (GoResult.ok data),
              Event.doAPIPost "/posts?set_online=false" data (GoResult.ok ())]⟩) := by
  have hp2 : (env.c.DoAPIPost ("/posts" ++ "?set_online=false") data
      (env.getChannelFromChannelArg arg w.srv).2).1 = GoResult.ok () := hp
  have hurl : "/posts" ++ "?set_online=false" = "/posts?set_online=false" := by decide
  simp only [submitPost, World.step, hl, hj, hp2]
  simp [hurl]

/-- The function `submitPost` returns an error exactly when the channel lookup
returns nil, or `ToJSON` fails on the post, or `DoAPIPost` fails on its JSON. -/
theorem submitPost_error_iff {σ : Type} (env : Env σ) (message arg replyTo : String)
    (w : World σ) :
    (submitPost env message arg replyTo w).1 ≠ none ↔
      ((env.getChannelFromChannelArg arg w.srv).1 = none
        ∨ ∃ channel, (env.getChannelFromChannelArg arg w.srv).1 = some channel
            ∧ ((∃ e, env.ToJSON { Id := "", UserId := "", ChannelId := channel.Id,
                                  Message := message, RootId := replyTo } = GoResult.err e)
              ∨ ∃ data, env.ToJSON { Id := "", UserId := "", ChannelId := channel.Id,
                                     Message := message, RootId := replyTo } = GoResult.ok data
                  ∧ ∃ e, (env.c.DoAPIPost "/posts?set_online=false" data
                            (env.getChannelFromChannelArg arg w.srv).2).1 = GoResult.err e)) := by
  cases hl : (env.getChannelFromChannelArg arg w.srv).1 with
  | none => simp [submitPost_not_found env message arg replyTo w hl]
  | some channel =>
    cases hj : env.ToJSON { Id := "", UserId := "", ChannelId := channel.Id,
                            Message := message, RootId := replyTo } with
    | err e => simp [submitPost_encode_failed env message arg replyTo w channel e hl hj, hj]
    | ok data =>
      cases hp : (env.c.DoAPIPost "/posts?set_online=false" data
          (env.getChannelFromChannelArg arg w.srv).2).1 with
      | err e =>
        simp [submitPost_rejected env message arg replyTo w channel data e hl hj hp, hj, hp]
      | ok u =>
        simp [submitPost_accepted env message arg replyTo w channel data hl hj hp, hj, hp]

/-- A run of `submitPost` that returns nil found the channel, encoded the post and
had it accepted by one `DoAPIPost` call, and took no other step. -/
theorem submitPost_nil {σ : Type} (env : Env σ) (message arg replyTo : String)
    (w : World σ) (h : (submitPost env message arg replyTo w).1 = none) :
    ∃ channel data,
      (env.getChannelFromChannelArg arg w.srv).1 = some channel
      ∧ env.ToJSON { Id := "", UserId := "", ChannelId := channel.Id,
                     Message := message, RootId := replyTo } = GoResult.ok data
      ∧ (env.c.DoAPIPost "/posts?set_online=false" data
            (env.getChannelFromChannelArg arg w.srv).2).1 = GoResult.ok ()
      ∧ submitPost env message arg replyTo w
          = (none,
              ⟨(env.c.DoAPIPost "/posts?set_online=false" data
                  (env.getChannelFromChannelArg arg w.srv).2).2,
                w.trace ++ [Event.channelLookup arg (some channel),
                  Event.toJSON { Id := "", UserId := "", ChannelId := channel.Id,
                                 Message := message, RootId := replyTo } (GoResult.ok data),
                  Event.doAPIPost "/posts?set_online=false" data (GoResult.ok ())]⟩) := by
  cases hl : (env.getChannelFromChannelArg arg w.srv).1 with
  | none => simp [submitPost_not_found env message arg replyTo w hl] at h
  | some channel =>
    cases hj : env.ToJSON { Id := "", UserId := "", ChannelId := channel.Id,
                            Message := message, RootId := replyTo } with
    | err e => simp [submitPost_encode_failed env message arg replyTo w channel e hl hj] at h
    | ok data =>
      cases hp : (env.c.DoAPIPost "/posts?set_online=false" data
          (env.getChannelFromChannelArg arg w.srv).2).1 with
      | err e =>
        simp [submitPost_rejected env message arg replyTo w channel data e hl hj hp] at h
      | ok u =>
        exact ⟨channel, data, rfl, hj, hp,
          submitPost_accepted env message arg replyTo w channel data hl hj hp⟩

/-! ### What the reply-to block of `postCreateCmdF` does -/

/-- The function `postCreateCmdF` with a message and no `--reply-to`. -/
theorem postCreateCmdF_no_reply {σ : Type} (env : Env σ) (flags : CreateFlags)
    (arg : String) (w : World σ) (hm : flags.message ≠ "") (hr : flags.replyTo = "") :
    postCreateCmdF env flags arg w = submitPost env flags.message arg "" w := by
  simp [postCreateCmdF, hm, hr]

/-- The function `postCreateCmdF` with a message and a `--reply-to` for which
`GetPost` fails. -/
theorem postCreateCmdF_reply_failed {σ : Type} (env : Env σ) (flags : CreateFlags)
    (arg : String) (w : World σ) (e : String) (hm : flags.message ≠ "")
    (hr : flags.replyTo ≠ "")
    (hg : (env.c.GetPost flags.replyTo "" w.srv).1 = GoResult.err e) :
    postCreateCmdF env flags arg w
      = (some e, ⟨(env.c.GetPost flags.replyTo "" w.srv).2,
          w.trace ++ [Event.getPost flags.replyTo "" (GoResult.err e)]⟩) := by
  simp [postCreateCmdF, World.step, hm, hr, hg]

/-- The function `postCreateCmdF` with a message and a `--reply-to` for which
`GetPost` returns a post. -/
theorem postCreateCmdF_reply_found {σ : Type} (env : Env σ) (flags : CreateFlags)
    (arg : String) (w : World σ) (replyToPost : Post) (hm : flags.message ≠ "")
    (hr : flags.replyTo ≠ "")
    (hg : (env.c.GetPost flags.replyTo "" w.srv).1 = GoResult.ok replyToPost) :
    postCreateCmdF env flags arg w
      = submitPost env flags.message arg
          (if replyToPost.RootId ≠ "" then replyToPost.RootId else flags.replyTo)
          ⟨(env.c.GetPost flags.replyTo "" w.srv).2,
            w.trace ++ [Event.getPost flags.replyTo "" (GoResult.ok replyToPost)]⟩ := by
  by_cases hroot : replyToPost.RootId = "" <;>
    simp [postCreateCmdF, World.step, hm, hr, hg, hroot]

/-! ### The run of `postCreateCmdF` -/

/-- A run of `postCreateCmdF` that returns nil, told by what the environment
returns: the reply-to block left the server state `s1`, the steps `pre` and
the thread root `root`; the channel lookup on `s1` found `channel`; `ToJSON`
gave `data` for the post with that channel, the message and that root; the one
`DoAPIPost` call accepted `data`; and the world returned is the one that call
left, with these steps and no other in the trace. -/
theorem postCreateCmdF_nil_run {σ : Type} (env : Env σ) (flags : CreateFlags)
    (arg : String) (s : σ)
    (h : (postCreateCmdF env flags arg (World.init s)).1 = none) :
    ∃ (s1 : σ) (pre : List Event) (root : String) (channel : Channel) (data : String),
      ((flags.replyTo = "" ∧ s1 = s ∧ pre = [] ∧ root = "")
        ∨ (flags.replyTo ≠ "" ∧ ∃ replyToPost,
            (env.c.GetPost flags.replyTo "" s).1 = GoResult.ok replyToPost
            ∧ s1 = (env.c.GetPost flags.replyTo "" s).2
            ∧ pre = [Event.getPost flags.replyTo "" (GoResult.ok replyToPost)]
            ∧ (replyToPost.RootId ≠ "" → root = replyToPost.RootId)
            ∧ (replyToPost.RootId = "" → root = flags.replyTo)))
      ∧ (env.getChannelFromChannelArg arg s1).1 = some channel
      ∧ env.ToJSON { Id := "", UserId := "", ChannelId := channel.Id,
                     Message := flags.message, RootId := root } = GoResult.ok data
      ∧ (env.c.DoAPIPost "/posts?set_online=false" data
            (env.getChannelFromChannelArg arg s1).2).1 = GoResult.ok ()
      ∧ postCreateCmdF env flags arg (World.init s)
          = (none,
              ⟨(env.c.DoAPIPost "/posts?set_online=false" data
                  (env.getChannelFromChannelArg arg s1).2).2,
                pre ++ [Event.channelLookup arg (some channel),
                  Event.toJSON { Id := "", UserId := "", ChannelId := channel.Id,
                                 Message := flags.message, RootId := root } (GoResult.ok data),
                  Event.doAPIPost "/posts?set_online=false" data (GoResult.ok ())]⟩) := by
  by_cases hm : flags.message = ""
  · simp [postCreateCmdF, hm] at h
  · by_cases hr : flags.replyTo = ""
    · rw [postCreateCmdF_no_reply env flags arg _ hm hr] at h ⊢
      obtain ⟨channel, data, hl, hj, hp, heq⟩ := submitPost_nil env _ _ _ _ h
      exact ⟨s, [], "", channel, data, Or.inl ⟨hr, rfl, rfl, rfl⟩, hl, hj, hp, heq⟩
    · cases hg : (env.c.GetPost flags.replyTo "" s).1 with
      | err e =>
        have hg2 : (env.c.GetPost flags.replyTo "" (World.init s).srv).1 = GoResult.err e := hg
        rw [postCreateCmdF_reply_failed env flags arg _ e hm hr hg2] at h
        cases h
      | ok replyToPost =>
        have hg2 : (env.c.GetPost flags.replyTo "" (World.init s).srv).1
            = GoResult.ok replyToPost := hg
        rw [postCreateCmdF_reply_found env flags arg _ replyToPost hm hr hg2] at h ⊢
        obtain ⟨channel, data, hl, hj, hp, heq⟩ := submitPost_nil env _ _ _ _ h
        refine ⟨(env.c.GetPost flags.replyTo "" s).2,
          [Event.getPost flags.replyTo "" (GoResult.ok replyToPost)],
          (if replyToPost.RootId ≠ "" then replyToPost.RootId else flags.replyTo),
          channel, data, Or.inr ⟨hr, replyToPost, rfl, rfl, rfl, ?_, ?_⟩, hl, hj, hp, heq⟩
        · intro hne; simp [hne]
        · intro he; simp [he]

/-- C1: `postCreateCmdF` returns an error exactly when the message is empty; or
`--reply-to` is set and `GetPost` fails for it; or, on the server state `s1`
and with the thread root `root` that the reply-to block leaves,
`getChannelFromChannelArg` returns nil, or `ToJSON` fails on the post, or
`DoAPIPost` fails on its JSON. When it returns nil, it has made exactly one
`DoAPIPost` call: the world it returns is the one that call left, and the
trace holds that call and no other `DoAPIPost`. -/
theorem postCreateCmdF_error_iff {σ : Type} (env : Env σ) (flags : CreateFlags)
    (arg : String) (s : σ) :
    ((postCreateCmdF env flags arg (World.init s)).1 ≠ none ↔
      (flags.message = ""
        ∨ (flags.replyTo ≠ "" ∧ ∃ e, (env.c.GetPost flags.replyTo "" s).1 = GoResult.err e)
        ∨ ∃ (s1 : σ) (root : String),
            ((flags.replyTo = "" ∧ s1 = s ∧ root = "")
              ∨ (flags.replyTo ≠ "" ∧ ∃ replyToPost,
                  (env.c.GetPost flags.replyTo "" s).1 = GoResult.ok replyToPost
                  ∧ s1 = (env.c.GetPost flags.replyTo "" s).2
                  ∧ root = (if replyToPost.RootId ≠ "" then replyToPost.RootId
                            else flags.replyTo)))
            ∧ ((env.getChannelFromChannelArg arg s1).1 = none
              ∨ ∃ channel, (env.getChannelFromChannelArg arg s1).1 = some channel
                  ∧ ((∃ e, env.ToJSON { Id := "", UserId := "", ChannelId := channel.Id,
                                        Message := flags.message, RootId := root }
                            = GoResult.err e)
                    ∨ ∃ data, env.ToJSON { Id := "", UserId := "", ChannelId := channel.Id,
                                           Message := flags.message, RootId := root }
                            = GoResult.ok data
                        ∧ ∃ e, (env.c.DoAPIPost "/posts?set_online=false" data
                                  (env.getChannelFromChannelArg arg s1).2).1
                                = GoResult.err e))))
    ∧ ((postCreateCmdF env flags arg (World.init s)).1 = none →
        ∃ data : String,
          (env.c.DoAPIPost "/posts?set_online=false" data
              (env.getChannelFromChannelArg arg
                (if flags.replyTo = "" then s
                 else (env.c.GetPost flags.replyTo "" s).2)).2).1 = GoResult.ok ()
          ∧ (postCreateCmdF env flags arg (World.init s)).2.srv
              = (env.c.DoAPIPost "/posts?set_online=false" data
                  (env.getChannelFromChannelArg arg
                    (if flags.replyTo = "" then s
                     else (env.c.GetPost flags.replyTo "" s).2)).2).2
          ∧ (postCreateCmdF env flags arg (World.init s)).2.trace.filter Event.isDoAPIPost
              = [Event.doAPIPost "/posts?set_online=false" data (GoResult.ok ())]
          ∧ ((postCreateCmdF env flags arg (World.init s)).2.trace.filter
              Event.isDoAPIPost).length = 1) := by
  constructor
  · by_cases hm : flags.message = ""
    · simp [postCreateCmdF, hm]
    · by_cases hr : flags.replyTo = ""
      · rw [postCreateCmdF_no_reply env flags arg _ hm hr, submitPost_error_iff]
        constructor
        · intro h
          exact Or.inr (Or.inr ⟨s, "", Or.inl ⟨hr, rfl, rfl⟩, h⟩)
        · rintro (h | ⟨h, _⟩ | ⟨s1, root, hreply, h⟩)
          · exact absurd h hm
          · exact absurd hr h
          · rcases hreply with ⟨_, hs1, hroot⟩ | ⟨h, _⟩
            · subst hs1; subst hroot; exact h
            · exact absurd hr h
      · cases hg : (env.c.GetPost flags.replyTo "" s).1 with
        | err e =>
          have hg2 : (env.c.GetPost flags.replyTo "" (World.init s).srv).1 = GoResult.err e := hg
          rw [postCreateCmdF_reply_failed env flags arg _ e hm hr hg2]
          simp [hr]
        | ok replyToPost =>
          have hg2 : (env.c.GetPost flags.replyTo "" (World.init s).srv).1
              = GoResult.ok replyToPost := hg
          rw [postCreateCmdF_reply_found env flags arg _ replyToPost hm hr hg2,
            submitPost_error_iff]
          constructor
          · intro h
            exact Or.inr (Or.inr ⟨_, _, Or.inr ⟨hr, replyToPost, rfl, rfl, rfl⟩, h⟩)
          · rintro (h | ⟨_, e, h⟩ | ⟨s1, root, hreply, h⟩)
            · exact absurd h hm
            · cases h
            · rcases hreply with ⟨h0, _, _⟩ | ⟨_, rp, hrp, hs1, hroot⟩
              · exact absurd h0 hr
              · cases hrp
                subst hs1; subst hroot; exact h
  · intro h
    obtain ⟨s1, pre, root, channel, data, hreply, hl, hj, hp, heq⟩ :=
      postCreateCmdF_nil_run env flags arg s h
    have hpre : pre.filter Event.isDoAPIPost = [] := by
      rcases hreply with ⟨_, _, hpre, _⟩ | ⟨_, rp, _, _, hpre, _⟩ <;>
        (subst hpre; simp [Event.isDoAPIPost])
    have hs1 : s1 = (if flags.replyTo = "" then s else (env.c.GetPost flags.replyTo "" s).2) := by
      rcases hreply with ⟨h0, hs1, _, _⟩ | ⟨h0, rp, _, hs1, _, _⟩
      · simp [h0, hs1]
      · simp [h0, hs1]
    rw [← hs1]
    refine ⟨data, hp, ?_, ?_, ?_⟩
    · rw [heq]
    · rw [heq]; simp [List.filter_append, hpre, List.filter_cons, Event.isDoAPIPost]
    · rw [heq]; simp [List.filter_append, hpre, List.filter_cons, Event.isDoAPIPost]

/-- C3: in a successful run of `postCreateCmdF` the post submitted to the server
is the one whose `ChannelId` is the `Id` of the channel that
`getChannelFromChannelArg` returns, whose `Message` is the `--message` flag
and whose `RootId` is the thread root: empty when `--reply-to` is empty, else
the `RootId` of the post that `GetPost` returns for `--reply-to` when that is
not empty, else the `--reply-to` id. The JSON of that post is what the one
`DoAPIPost` call, to `/posts?set_online=false`, is given, and the world
returned is the one that call left. -/
theorem postCreateCmdF_submitted_post {σ : Type} (env : Env σ) (flags : CreateFlags)
    (arg : String) (s : σ)
    (h : (postCreateCmdF env flags arg (World.init s)).1 = none) :
    ∃ (s1 : σ) (pre : List Event) (root : String) (channel : Channel) (data : String),
      ((flags.replyTo = "" ∧ s1 = s ∧ pre = [] ∧ root = "")
        ∨ (flags.replyTo ≠ "" ∧ ∃ replyToPost,
            (env.c.GetPost flags.replyTo "" s).1 = GoResult.ok replyToPost
            ∧ s1 = (env.c.GetPost flags.replyTo "" s).2
            ∧ pre = [Event.getPost flags.replyTo "" (GoResult.ok replyToPost)]
            ∧ (replyToPost.RootId ≠ "" → root = replyToPost.RootId)
            ∧ (replyToPost.RootId = "" → root = flags.replyTo)))
      ∧ (env.getChannelFromChannelArg arg s1).1 = some channel
      ∧ env.ToJSON { Id := "", UserId := "", ChannelId := channel.Id,
                     Message := flags.message, RootId := root } = GoResult.ok data
      ∧ (env.c.DoAPIPost "/posts?set_online=false" data
            (env.getChannelFromChannelArg arg s1).2).1 = GoResult.ok ()
      ∧ postCreateCmdF env flags arg (World.init s)
          = (none,
              ⟨(env.c.DoAPIPost "/posts?set_online=false" data
                  (env.getChannelFromChannelArg arg s1).2).2,
                pre ++ [Event.channelLookup arg (some channel),
                  Event.toJSON { Id := "", UserId := "", ChannelId := channel.Id,
                                 Message := flags.message, RootId := root } (GoResult.ok data),
                  Event.doAPIPost "/posts?set_online=false" data (GoResult.ok ())]⟩) :=
  postCreateCmdF_nil_run env flags arg s h

/-- Witness of C3 on the sample server: a reply to `p2`, itself a reply to `p1`,
is submitted with `p1` as its root. -/
theorem postCreateCmdF_submitted_post_witness :
    (postCreateCmdF demoEnv ⟨"hi", "p2"⟩ "team:town" (World.init 0)).1 = none
    ∧ (∃ (s1 : Nat) (pre : List Event) (root : String) (channel : Channel) (data : String),
      (((⟨"hi", "p2"⟩ : CreateFlags).replyTo = "" ∧ s1 = 0 ∧ pre = [] ∧ root = "")
        ∨ ((⟨"hi", "p2"⟩ : CreateFlags).replyTo ≠ "" ∧ ∃ replyToPost,
            (demoEnv.c.GetPost (⟨"hi", "p2"⟩ : CreateFlags).replyTo "" 0).1
                = GoResult.ok replyToPost
            ∧ s1 = (demoEnv.c.GetPost (⟨"hi", "p2"⟩ : CreateFlags).replyTo "" 0).2
            ∧ pre = [Event.getPost (⟨"hi", "p2"⟩ : CreateFlags).replyTo ""
                      (GoResult.ok replyToPost)]
            ∧ (replyToPost.RootId ≠ "" → root = replyToPost.RootId)
            ∧ (replyToPost.RootId = "" → root = (⟨"hi", "p2"⟩ : CreateFlags).replyTo)))
      ∧ (demoEnv.getChannelFromChannelArg "team:town" s1).1 = some channel
      ∧ demoEnv.ToJSON { Id := "", UserId := "", ChannelId := channel.Id,
                         Message := (⟨"hi", "p2"⟩ : CreateFlags).message, RootId := root }
          = GoResult.ok data
      ∧ (demoEnv.c.DoAPIPost "/posts?set_online=false" data
            (demoEnv.getChannelFromChannelArg "team:town" s1).2).1 = GoResult.ok ()
      ∧ postCreateCmdF demoEnv ⟨"hi", "p2"⟩ "team:town" (World.init 0)
          = (none,
              ⟨(demoEnv.c.DoAPIPost "/posts?set_online=false" data
                  (demoEnv.getChannelFromChannelArg "team:town" s1).2).2,
                pre ++ [Event.channelLookup "team:town" (some channel),
                  Event.toJSON { Id := "", UserId := "", ChannelId := channel.Id,
                                 Message := (⟨"hi", "p2"⟩ : CreateFlags).message,
                                 RootId := root } (GoResult.ok data),
                  Event.doAPIPost "/posts?set_online=false" data (GoResult.ok ())]⟩))
    ∧ (postCreateCmdF demoEnv ⟨"hi", "p2"⟩ "team:town" (World.init 0)).2.trace
        = [Event.getPost "p2" "" (GoResult.ok ⟨"p2", "u2", "c1", "p1", "second"⟩),
           Event.channelLookup "team:town" (some ⟨"c1"⟩),
           Event.toJSON ⟨"", "", "c1", "p1", "hi"⟩ (GoResult.ok "c1|p1|hi"),
           Event.doAPIPost "/posts?set_online=false" "c1|p1|hi" (GoResult.ok ())]
    ∧ (postCreateCmdF demoEnv ⟨"hi", "p2"⟩ "team:town" (World.init 0)).2.srv = 3 :=
  ⟨by decide,
    postCreateCmdF_submitted_post demoEnv ⟨"hi", "p2"⟩ "team:town" 0 (by decide),
    by decide, by decide⟩

/-! ## Lemmas: the printing loops -/

/-- The function `printPost` on a post whose author is in the cache. -/
theorem printPost_cached {σ : Type} (env : Env σ) (post : Post) (showIds : Bool)
    (st : ListState σ) (hc : st.usernames.get post.UserId ≠ "") :
    printPost env post showIds st
      = ⟨st.usernames, ⟨st.world.srv, st.world.trace ++
          [Event.printT (postTemplate post (st.usernames.get post.UserId) showIds) post]⟩⟩ := by
  simp [printPost, World.step, hc]

/-- The function `printPost` on a post whose author is not in the cache, when
`GetUser` fails: the cache stays as it was. -/
theorem printPost_failed {σ : Type} (env : Env σ) (post : Post) (showIds : Bool)
    (st : ListState σ) (e : String) (hc : st.usernames.get post.UserId = "")
    (hr : (env.c.GetUser post.UserId "" st.world.srv).1 = GoResult.err e) :
    printPost env post showIds st
      = ⟨st.usernames, ⟨(env.c.GetUser post.UserId "" st.world.srv).2, st.world.trace ++
          [Event.getUser post.UserId "" (GoResult.err e),
           Event.printT (postTemplate post post.UserId showIds) post]⟩⟩ := by
  simp [printPost, World.step, hc, hr]

/-- The function `printPost` on a post whose author is not in the cache, when
`GetUser` succeeds: the username is written to the cache. -/
theorem printPost_fetched {σ : Type} (env : Env σ) (post : Post) (showIds : Bool)
    (st : ListState σ) (user : User) (hc : st.usernames.get post.UserId = "")
    (hr : (env.c.GetUser post.UserId "" st.world.srv).1 = GoResult.ok user) :
    printPost env post showIds st
      = ⟨st.usernames.set post.UserId user.Username,
          ⟨(env.c.GetUser post.UserId "" st.world.srv).2, st.world.trace ++
            [Event.getUser post.UserId "" (GoResult.ok user),
             Event.printT (postTemplate post user.Username showIds) post]⟩⟩ := by
  simp [printPost, World.step, hc, hr]

/-- The steps `printPost` takes: at most one `GetUser` call for the post's author,
then the print of the post. -/
theorem printPost_trace {σ : Type} (env : Env σ) (post : Post) (showIds : Bool)
    (st : ListState σ) :
    (∃ tpl, (printPost env post showIds st).world.trace
        = st.world.trace ++ [Event.printT tpl post])
      ∨ ∃ tpl r, (printPost env post showIds st).world.trace
        = st.world.trace ++ [Event.getUser post.UserId "" r, Event.printT tpl post] := by
  by_cases hc : st.usernames.get post.UserId = ""
  · cases hr : (env.c.GetUser post.UserId "" st.world.srv).1 with
    | err e => exact Or.inr ⟨_, _, by rw [printPost_failed env post showIds st e hc hr]⟩
    | ok user => exact Or.inr ⟨_, _, by rw [printPost_fetched env post showIds st user hc hr]⟩
  · exact Or.inl ⟨_, by rw [printPost_cached env post showIds st hc]⟩

/-- The loop of `postListCmdF` never indexes outside the slice, and run from
`i = 1` with enough fuel it prints the slice from its last element to its first. -/
theorem printLoop_eq {σ : Type} (env : Env σ) (posts : List Post) (showIds : Bool) :
    ∀ (fuel i : Nat) (st : ListState σ), 1 ≤ i → i + fuel = posts.length + 1 →
      printLoop env posts showIds fuel i st
        = (none, printAll env showIds (posts.take (posts.length + 1 - i)).reverse st) := by
  intro fuel
  induction fuel with
  | zero =>
    intro i st _ h
    have : posts.length + 1 - i = 0 := by omega
    simp [printLoop, printAll, this]
  | succ n ih =>
    intro i st h1 h
    have hi : i ≤ posts.length := by omega
    have hlt : posts.length - i < posts.length := by omega
    have hk : posts.length + 1 - i = (posts.length - i) + 1 := by omega
    have hk2 : posts.length + 1 - (i + 1) = posts.length - i := by omega
    rw [printLoop, if_pos hi, List.getElem?_eq_getElem hlt]
    simp only
    rw [ih (i + 1) _ (by omega) (by omega), hk, hk2, List.take_succ,
      List.getElem?_eq_getElem hlt]
    simp only [printAll, Option.toList, List.reverse_append, List.reverse_cons,
      List.reverse_nil, List.nil_append, List.singleton_append, List.foldl_cons]

/-- The loop of `postListCmdF` as the command runs it prints the slice in reverse. -/
theorem printLoop_full {σ : Type} (env : Env σ) (posts : List Post) (showIds : Bool)
    (st : ListState σ) :
    printLoop env posts showIds posts.length 1 st
      = (none, printAll env showIds posts.reverse st) := by
  rw [printLoop_eq env posts showIds _ 1 _ (le_refl 1) (by omega)]
  simp

/-- The function `printPost` prints its post, once, and no other. -/
theorem printedPosts_printPost {σ : Type} (env : Env σ) (post : Post) (showIds : Bool)
    (st : ListState σ) :
    printedPosts (printPost env post showIds st).world.trace
      = printedPosts st.world.trace ++ [post] := by
  rcases printPost_trace env post showIds st with ⟨tpl, h⟩ | ⟨tpl, r, h⟩
  · rw [h]; simp [printedPosts, List.filterMap_append]
  · rw [h]; simp [printedPosts, List.filterMap_append, List.filterMap_cons]

/-- Printing a sequence prints its posts in order, each once. -/
theorem printedPosts_printAll {σ : Type} (env : Env σ) (showIds : Bool) (posts : List Post) :
    ∀ st : ListState σ,
      printedPosts (printAll env showIds posts st).world.trace
        = printedPosts st.world.trace ++ posts := by
  induction posts with
  | nil => intro st; simp [printAll]
  | cons p ps ih =>
    intro st
    simp only [printAll, List.foldl_cons] at ih ⊢
    rw [ih, printedPosts_printPost]
    simp

/-! ## Theorems: a channel that is not found -/

/-- C4, as the code has it. In `postCreateCmdF`, when the message is not empty and
the reply-to block is passed (`--reply-to` is empty, or `GetPost` returns a
post for it) and `getChannelFromChannelArg` returns nil for the argument `a`,
the command returns the error "Unable to find channel '" ++ a ++ "'" and the
world that the lookup left: no `DoAPIPost` call is made. In `postListCmdF`,
when `getChannelFromChannelArg` returns nil for `a`, the command returns the
same error and the world that the lookup left: no `GetPostsForChannel` call is
made and no post is printed. -/
theorem unable_to_find_channel {σ : Type} (env : Env σ) (createFlags : CreateFlags)
    (listFlags : ListFlags) (a : String) (events : List WebSocketEvent) (s : σ) :
    (∀ (s1 : σ) (pre : List Event), createFlags.message ≠ "" →
      ((createFlags.replyTo = "" ∧ s1 = s ∧ pre = [])
        ∨ (createFlags.replyTo ≠ "" ∧ ∃ replyToPost,
            (env.c.GetPost createFlags.replyTo "" s).1 = GoResult.ok replyToPost
            ∧ s1 = (env.c.GetPost createFlags.replyTo "" s).2
            ∧ pre = [Event.getPost createFlags.replyTo "" (GoResult.ok replyToPost)])) →
      (env.getChannelFromChannelArg a s1).1 = none →
      postCreateCmdF env createFlags a (World.init s)
        = (some ("Unable to find channel \x27" ++ a ++ "\x27"),
            ⟨(env.getChannelFromChannelArg a s1).2, pre ++ [Event.channelLookup a none]⟩))
    ∧ ((env.getChannelFromChannelArg a s).1 = none →
      postListCmdF env listFlags a events (World.init s)
        = (Outcome.returned (some ("Unable to find channel \x27" ++ a ++ "\x27")),
            ⟨[], ⟨(env.getChannelFromChannelArg a s).2,
                  [Event.setSingle true, Event.channelLookup a none]⟩⟩)) := by
  constructor
  · intro s1 pre hm hreply hl
    rcases hreply with ⟨hr, hs1, hpre⟩ | ⟨hr, replyToPost, hg, hs1, hpre⟩
    · subst hs1; subst hpre
      rw [postCreateCmdF_no_reply env createFlags a _ hm hr]
      exact submitPost_not_found env _ a _ _ hl
    · subst hs1; subst hpre
      have hg2 : (env.c.GetPost createFlags.replyTo "" (World.init s).srv).1
          = GoResult.ok replyToPost := hg
      rw [postCreateCmdF_reply_found env createFlags a _ replyToPost hm hr hg2]
      exact submitPost_not_found env _ a _ _ hl
  · intro hl
    simp [postListCmdF, World.init, World.step, hl]

/-- Witness of C4 on the sample server: `team:nowhere` does not resolve, with a
reply to `p1` for `post create`. -/
theorem unable_to_find_channel_witness :
    ((⟨"hi", "p1"⟩ : CreateFlags).message ≠ ""
      ∧ ((⟨"hi", "p1"⟩ : CreateFlags).replyTo ≠ ""
          ∧ (demoEnv.c.GetPost (⟨"hi", "p1"⟩ : CreateFlags).replyTo "" 0).1
              = GoResult.ok ⟨"p1", "u2", "c1", "", "first"⟩)
      ∧ (demoEnv.getChannelFromChannelArg "team:nowhere" 1).1 = none
      ∧ postCreateCmdF demoEnv ⟨"hi", "p1"⟩ "team:nowhere" (World.init 0)
          = (some ("Unable to find channel \x27" ++ "team:nowhere" ++ "\x27"),
              ⟨(demoEnv.getChannelFromChannelArg "team:nowhere" 1).2,
                [Event.getPost (⟨"hi", "p1"⟩ : CreateFlags).replyTo ""
                    (GoResult.ok ⟨"p1", "u2", "c1", "", "first"⟩)]
                  ++ [Event.channelLookup "team:nowhere" none]⟩))
    ∧ ((demoEnv.getChannelFromChannelArg "team:nowhere" 0).1 = none
      ∧ postListCmdF demoEnv ⟨20, false, true⟩ "team:nowhere" [] (World.init 0)
          = (Outcome.returned (some ("Unable to find channel \x27" ++ "team:nowhere" ++ "\x27")),
              ⟨[], ⟨(demoEnv.getChannelFromChannelArg "team:nowhere" 0).2,
                    [Event.setSingle true, Event.channelLookup "team:nowhere" none]⟩⟩)) :=
  ⟨⟨by decide, ⟨by decide, by decide⟩, by decide,
      (unable_to_find_channel demoEnv ⟨"hi", "p1"⟩ ⟨20, false, true⟩ "team:nowhere" [] 0).1
        1 [Event.getPost (⟨"hi", "p1"⟩ : CreateFlags).replyTo ""
            (GoResult.ok ⟨"p1", "u2", "c1", "", "first"⟩)]
        (by decide)
        (Or.inr ⟨by decide, ⟨"p1", "u2", "c1", "", "first"⟩, by decide, by decide, rfl⟩)
        (by decide)⟩,
    ⟨by decide,
      (unable_to_find_channel demoEnv ⟨"hi", "p1"⟩ ⟨20, false, true⟩ "team:nowhere" [] 0).2
        (by decide)⟩⟩

/-- C4 fails as stated for `postCreateCmdF`: on the sample server
`getChannelFromChannelArg` returns nil for `team:nowhere` on every server
state, and yet with an empty message the command returns "message cannot be
empty", and with a `--reply-to` that `GetPost` does not find it returns the
error of `GetPost`. -/
theorem unable_to_find_channel_not_reached :
    (∀ n : Nat, (demoEnv.getChannelFromChannelArg "team:nowhere" n).1 = none)
    ∧ (postCreateCmdF demoEnv ⟨"", ""⟩ "team:nowhere" (World.init 0)).1
        = some "message cannot be empty"
    ∧ (postCreateCmdF demoEnv ⟨"", ""⟩ "team:nowhere" (World.init 0)).1
        ≠ some ("Unable to find channel \x27" ++ "team:nowhere" ++ "\x27")
    ∧ (postCreateCmdF demoEnv ⟨"hi", "p0"⟩ "team:nowhere" (World.init 0)).1
        = some "post not found"
    ∧ (postCreateCmdF demoEnv ⟨"hi", "p0"⟩ "team:nowhere" (World.init 0)).1
        ≠ some ("Unable to find channel \x27" ++ "team:nowhere" ++ "\x27") :=
  ⟨fun _ => rfl, by decide, by decide, by decide, by decide⟩

/-! ## Theorems: listing without `--follow` -/

/-- C8: without `--follow`, when the channel resolves and `GetPostsForChannel`
returns a post list, `postListCmdF` returns nil having run `printPost` once
for each element of `postList.ToSlice()`, from the last element to the first,
on the state that starts with an empty `usernames` map; the posts it prints
are the slice reversed, and none when the slice is empty. -/
theorem postListCmdF_prints_reversed {σ : Type} (env : Env σ) (flags : ListFlags)
    (arg : String) (events : List WebSocketEvent) (s : σ) (channel : Channel)
    (postList : PostList)
    (hf : flags.follow = false)
    (hl : (env.getChannelFromChannelArg arg s).1 = some channel)
    (hg : (env.c.GetPostsForChannel channel.Id 0 flags.number "" false
            (env.getChannelFromChannelArg arg s).2).1 = GoResult.ok postList) :
    postListCmdF env flags arg events (World.init s)
        = (Outcome.returned none,
            printAll env flags.showIds postList.ToSlice.reverse
              ⟨[], ⟨(env.c.GetPostsForChannel channel.Id 0 flags.number "" false
                      (env.getChannelFromChannelArg arg s).2).2,
                    [Event.setSingle true, Event.channelLookup arg (some channel),
                     Event.getPostsForChannel channel.Id 0 flags.number "" false
                       (GoResult.ok postList)]⟩⟩)
      ∧ printedPosts (postListCmdF env flags arg events (World.init s)).2.world.trace
          = postList.ToSlice.reverse
      ∧ (postList.ToSlice = [] →
          printedPosts (postListCmdF env flags arg events (World.init s)).2.world.trace = []) := by
  have heq : postListCmdF env flags arg events (World.init s)
        = (Outcome.returned none,
            printAll env flags.showIds postList.ToSlice.reverse
              ⟨[], ⟨(env.c.GetPostsForChannel channel.Id 0 flags.number "" false
                      (env.getChannelFromChannelArg arg s).2).2,
                    [Event.setSingle true, Event.channelLookup arg (some channel),
                     Event.getPostsForChannel channel.Id 0 flags.number "" false
                       (GoResult.ok postList)]⟩⟩) := by
    unfold postListCmdF
    simp only [World.init, World.step, hl, hg, printLoop_full, hf]
    simp
  have hp : printedPosts (postListCmdF env flags arg events (World.init s)).2.world.trace
      = postList.ToSlice.reverse := by
    rw [heq]
    simp only
    rw [printedPosts_printAll]
    simp [printedPosts]
  refine ⟨heq, hp, fun h0 => ?_⟩
  rw [hp, h0]
  rfl

/-- Witness of C8 on the sample server: the channel `team:town` holds two posts. -/
theorem postListCmdF_prints_reversed_witness :
    (⟨20, true, false⟩ : ListFlags).follow = false
    ∧ (demoEnv.getChannelFromChannelArg "team:town" 0).1 = some ⟨"c1"⟩
    ∧ (demoEnv.c.GetPostsForChannel (⟨"c1"⟩ : Channel).Id 0 (⟨20, true, false⟩ : ListFlags).number
          "" false (demoEnv.getChannelFromChannelArg "team:town" 0).2).1
        = GoResult.ok ⟨[⟨"p1", "u2", "c1", "", "first"⟩, ⟨"p2", "u2", "c1", "p1", "second"⟩]⟩
    ∧ printedPosts (postListCmdF demoEnv ⟨20, true, false⟩ "team:town" [] (World.init 0)).2.world.trace
        = [⟨"p2", "u2", "c1", "p1", "second"⟩, ⟨"p1", "u2", "c1", "", "first"⟩] :=
  ⟨rfl, by decide, by decide,
    (postListCmdF_prints_reversed demoEnv ⟨20, true, false⟩ "team:town" [] 0 ⟨"c1"⟩
      ⟨[⟨"p1", "u2", "c1", "", "first"⟩, ⟨"p2", "u2", "c1", "p1", "second"⟩]⟩
      rfl (by decide) (by decide)).2.1⟩

/-! ## Theorems: the status map -/

/-- Reading a key of a `StringMap` right after a write. -/
theorem StringMap.lookup_set (m : StringMap) (k v u : String) :
    (m.set k v).lookup u = if u = k then some v else m.lookup u := by
  unfold StringMap.set
  rw [List.lookup_cons]
  by_cases h : u = k
  · simp [h]
  · have hb : (u == k) = false := by simpa using h
    simp [h, hb]

/-- The loop of `StatusMapToInterfaceMap` from any map built so far: an entry of
the result was there before or comes from a status that is not offline. -/
theorem statusFold_sound (statusMap : List (String × Status)) (u v : String) :
    ∀ acc : StringMap,
      (statusMap.foldl
          (fun interfaceMap kv =>
            if kv.2.Status ≠ StatusOffline then interfaceMap.set kv.2.UserId kv.2.Status
            else interfaceMap) acc).lookup u = some v →
        acc.lookup u = some v
          ∨ ∃ kv ∈ statusMap, kv.2.UserId = u ∧ kv.2.Status = v ∧ v ≠ StatusOffline := by
  induction statusMap with
  | nil => intro acc h; exact Or.inl h
  | cons kv rest ih =>
    intro acc h
    rw [List.foldl_cons] at h
    rcases ih _ h with h1 | ⟨kv1, hmem, h1⟩
    · by_cases hoff : kv.2.Status = StatusOffline
      · left; simpa [hoff] using h1
      · simp only [ne_eq, hoff, not_false_eq_true, if_true] at h1
        rw [StringMap.lookup_set] at h1
        by_cases hu : u = kv.2.UserId
        · right
          simp only [hu, if_true, Option.some.injEq] at h1
          exact ⟨kv, List.mem_cons_self _ _, hu.symm, h1, h1 ▸ hoff⟩
        · left; simpa [hu] using h1
    · exact Or.inr ⟨kv1, List.mem_cons_of_mem _ hmem, h1⟩

/-- The loop of `StatusMapToInterfaceMap` from any map built so far: a key that
was there before, or that a status which is not offline carries, is in the
result. -/
theorem statusFold_complete (statusMap : List (String × Status)) (u : String) :
    ∀ acc : StringMap,
      ((∃ v, acc.lookup u = some v)
          ∨ ∃ kv ∈ statusMap, kv.2.UserId = u ∧ kv.2.Status ≠ StatusOffline) →
        ∃ v, (statusMap.foldl
          (fun interfaceMap kv =>
            if kv.2.Status ≠ StatusOffline then interfaceMap.set kv.2.UserId kv.2.Status
            else interfaceMap) acc).lookup u = some v := by
  induction statusMap with
  | nil =>
    intro acc h
    rcases h with h | ⟨kv, hmem, _⟩
    · exact h
    · cases hmem
  | cons kv rest ih =>
    intro acc h
    rw [List.foldl_cons]
    apply ih
    rcases h with ⟨v, h⟩ | ⟨kv1, hmem, hu, hoff⟩
    · left
      by_cases hoff : kv.2.Status = StatusOffline
      · exact ⟨v, by simpa [hoff] using h⟩
      · simp only [ne_eq, hoff, not_false_eq_true, if_true]
        by_cases hk : u = kv.2.UserId
        · exact ⟨kv.2.Status, by rw [StringMap.lookup_set]; simp [hk]⟩
        · exact ⟨v, by rw [StringMap.lookup_set]; simpa [hk] using h⟩
    · rcases List.mem_cons.mp hmem with heq | hmem
      · left
        subst heq
        simp only [ne_eq, hoff, not_false_eq_true, if_true]
        exact ⟨kv1.2.Status, by rw [StringMap.lookup_set]; simp [hu]⟩
      · exact Or.inr ⟨kv1, hmem, hu, hoff⟩

/-- C7: the result of `StatusMapToInterfaceMap` has an entry for a user id `u`
exactly when the input holds a status with `UserId` `u` whose `Status` is not
"offline", and the value of an entry is the `Status` string of such a status;
so no offline status contributes an entry. -/
theorem StatusMapToInterfaceMap_entries (statusMap : List (String × Status)) (u : String) :
    ((∃ v, (StatusMapToInterfaceMap statusMap).lookup u = some v) ↔
      ∃ kv ∈ statusMap, kv.2.UserId = u ∧ kv.2.Status ≠ StatusOffline)
    ∧ ∀ v, (StatusMapToInterfaceMap statusMap).lookup u = some v →
        v ≠ StatusOffline ∧ ∃ kv ∈ statusMap, kv.2.UserId = u ∧ kv.2.Status = v := by
  have sound : ∀ v, (StatusMapToInterfaceMap statusMap).lookup u = some v →
      ∃ kv ∈ statusMap, kv.2.UserId = u ∧ kv.2.Status = v ∧ v ≠ StatusOffline := by
    intro v h
    rcases statusFold_sound statusMap u v [] h with h0 | h1
    · simp at h0
    · exact h1
  refine ⟨⟨?_, ?_⟩, ?_⟩
  · rintro ⟨v, h⟩
    obtain ⟨kv, hmem, hu, hv, hoff⟩ := sound v h
    exact ⟨kv, hmem, hu, hv ▸ hoff⟩
  · intro h
    exact statusFold_complete statusMap u [] (Or.inr h)
  · intro v h
    obtain ⟨kv, hmem, hu, hv, hoff⟩ := sound v h
    exact ⟨hoff, kv, hmem, hu, hv⟩

/-! ## Theorems: the username cache -/

/-- What the cache guarantees, for one user id `u`, about a state the printing
loops reach: while `u` has no username in the cache every `GetUser` call for
`u` so far left nothing to find; no `GetUser` call for `u` follows one that
left a username; and the calls for `u` outnumber those that left nothing by
at most one, and by none while `u` has no username in the cache. -/
def CacheInv {σ : Type} (u : String) (st : ListState σ) : Prop :=
  (st.usernames.get u = "" →
      ∀ e ∈ st.world.trace, e.isGetUserFor u = true → e.isUncachedGetUserFor u = true)
  ∧ st.world.trace.Pairwise
      (fun e e' => e.isGetUserFor u = true → e.isUncachedGetUserFor u = false →
        e'.isGetUserFor u = false)
  ∧ st.world.trace.countP (Event.isGetUserFor u)
      ≤ st.world.trace.countP (Event.isUncachedGetUserFor u)
        + (if st.usernames.get u = "" then 0 else 1)

/-- Reading a key of the cache right after a write. -/
theorem StringMap.get_set (m : StringMap) (k v u : String) :
    (m.set k v).get u = if u = k then v else m.get u := by
  unfold StringMap.get StringMap.set
  rw [List.lookup_cons]
  by_cases h : u = k
  · simp [h]
  · have hb : (u == k) = false := by simpa using h
    simp [h, hb]

/-- The state at the start of the printing loops satisfies the cache invariant. -/
theorem CacheInv_init {σ : Type} (u : String) (w : σ) :
    CacheInv u (⟨[], World.init w⟩ : ListState σ) := by
  simp [CacheInv, World.init, StringMap.get]

/-- The function `printPost` preserves the cache invariant. -/
theorem CacheInv_printPost {σ : Type} (env : Env σ) (u : String) (post : Post)
    (showIds : Bool) (st : ListState σ) (h : CacheInv u st) :
    CacheInv u (printPost env post showIds st) := by
  obtain ⟨hno, hpw, hcnt⟩ := h
  by_cases hc : st.usernames.get post.UserId = ""
  · have hnew : ∀ r tpl, ∀ a ∈ st.world.trace, ∀ b ∈
        [Event.getUser post.UserId "" r, Event.printT tpl post],
        a.isGetUserFor u = true → a.isUncachedGetUserFor u = false →
          b.isGetUserFor u = false := by
      intro r tpl a ha b hb h1 h2
      simp only [List.mem_cons, List.mem_singleton, List.not_mem_nil, or_false] at hb
      rcases hb with hb | hb
      · subst hb
        by_cases hu : post.UserId = u
        · have := hno (hu ▸ hc) a ha h1
          rw [this] at h2
          cases h2
        · simp [Event.isGetUserFor, hu]
      · subst hb; rfl
    cases hr : (env.c.GetUser post.UserId "" st.world.srv).1 with
    | err e =>
      rw [printPost_failed env post showIds st e hc hr]
      refine ⟨?_, ?_, ?_⟩
      · intro hu0 e' he' hfor
        simp only [List.mem_append, List.mem_cons, List.mem_singleton, List.not_mem_nil,
          or_false] at he'
        rcases he' with he' | he' | he'
        · exact hno hu0 e' he' hfor
        · subst he'; simpa [Event.isGetUserFor, Event.isUncachedGetUserFor] using hfor
        · subst he'; simp [Event.isGetUserFor] at hfor
      · refine List.pairwise_append.mpr ⟨hpw, ?_, hnew _ _⟩
        simp [Event.isGetUserFor]
      · simp only [List.countP_append, List.countP_cons, List.countP_nil,
          Event.isGetUserFor, Event.isUncachedGetUserFor] at hcnt ⊢
        by_cases hu : post.UserId = u <;> simp [hu] <;> omega
    | ok user =>
      rw [printPost_fetched env post showIds st user hc hr]
      refine ⟨?_, ?_, ?_⟩
      · intro hu0 e' he' hfor
        simp only [List.mem_append, List.mem_cons, List.mem_singleton, List.not_mem_nil,
          or_false] at he'
        simp only [StringMap.get_set] at hu0
        rcases he' with he' | he' | he'
        · by_cases hu : u = post.UserId
          · exact hno (hu ▸ hc) e' he' hfor
          · simp only [hu, if_false] at hu0
            exact hno hu0 e' he' hfor
        · subst he'
          simp only [Event.isGetUserFor, decide_eq_true_eq] at hfor
          simp only [hfor.symm, if_true] at hu0
          simp [Event.isUncachedGetUserFor, hfor, hu0]
        · subst he'; simp [Event.isGetUserFor] at hfor
      · refine List.pairwise_append.mpr ⟨hpw, ?_, hnew _ _⟩
        simp [Event.isGetUserFor]
      · simp only [List.countP_append, List.countP_cons, List.countP_nil,
          Event.isGetUserFor, Event.isUncachedGetUserFor, StringMap.get_set] at hcnt ⊢
        by_cases hu : post.UserId = u
        · subst hu
          rw [hc] at hcnt
          by_cases hn : user.Username = "" <;> simp [hn] <;> simp at hcnt <;> omega
        · have hu2 : ¬ u = post.UserId := fun h => hu h.symm
          simp [hu, hu2]
          simpa using hcnt
  · rw [printPost_cached env post showIds st hc]
    refine ⟨?_, ?_, ?_⟩
    · intro hu0 e' he' hfor
      simp only [List.mem_append, List.mem_singleton] at he'
      rcases he' with he' | he'
      · exact hno hu0 e' he' hfor
      · subst he'; simp [Event.isGetUserFor] at hfor
    · refine List.pairwise_append.mpr ⟨hpw, List.pairwise_singleton _ _, ?_⟩
      intro a _ b hb _ _
      simp only [List.mem_singleton] at hb
      subst hb; rfl
    · simpa [List.countP_append, List.countP_cons, Event.isGetUserFor,
        Event.isUncachedGetUserFor] using hcnt

/-- Printing a sequence of posts preserves the cache invariant. -/
theorem CacheInv_printAll {σ : Type} (env : Env σ) (u : String) (showIds : Bool)
    (posts : List Post) :
    ∀ st : ListState σ, CacheInv u st → CacheInv u (printAll env showIds posts st) := by
  induction posts with
  | nil => intro st h; exact h
  | cons p ps ih =>
    intro st h
    simp only [printAll, List.foldl_cons] at ih ⊢
    exact ih _ (CacheInv_printPost env u p showIds st h)

/-- A username in the cache stays there when `printPost` runs. -/
theorem printPost_keeps_username {σ : Type} (env : Env σ) (post : Post) (showIds : Bool)
    (st : ListState σ) (u : String) (h : st.usernames.get u ≠ "") :
    (printPost env post showIds st).usernames.get u = st.usernames.get u := by
  by_cases hc : st.usernames.get post.UserId = ""
  · cases hr : (env.c.GetUser post.UserId "" st.world.srv).1 with
    | err e => rw [printPost_failed env post showIds st e hc hr]
    | ok user =>
      rw [printPost_fetched env post showIds st user hc hr]
      simp only [StringMap.get_set]
      have hne : ¬ u = post.UserId := fun hu => h (hu ▸ hc)
      simp [hne]
  · rw [printPost_cached env post showIds st hc]

/-- A username in the cache stays there while a sequence of posts is printed. -/
theorem printAll_keeps_username {σ : Type} (env : Env σ) (showIds : Bool) (u : String)
    (posts : List Post) :
    ∀ st : ListState σ, st.usernames.get u ≠ "" →
      (printAll env showIds posts st).usernames.get u = st.usernames.get u := by
  induction posts with
  | nil => intro st _; rfl
  | cons p ps ih =>
    intro st h
    simp only [printAll, List.foldl_cons] at ih ⊢
    have hp := printPost_keeps_username env p showIds st u h
    rw [ih _ (hp ▸ h), hp]

/-- C5, as the code has it. What `printPost` does to a state is fixed by the cache
and by what `GetUser` returns: for an author with a username in the cache it
prints the post without touching the server; for any other author it calls
`GetUser` once, and writes the username to the cache only when the call
succeeds. So in every sequence of posts printed on a shared `usernames` map
that starts empty, once `GetUser` has returned a non-empty username for an
author, every later post by that author is printed under that username
without touching the server; no `GetUser` call for a user id `u` follows one
that returned a username, and the `GetUser` calls for `u` outnumber those
that failed or returned an empty username by at most one. -/
theorem getUser_cached_after_success {σ : Type} (env : Env σ) (showIds : Bool)
    (posts : List Post) (s : σ) (u : String) :
    (∀ (post : Post) (st : ListState σ), st.usernames.get post.UserId ≠ "" →
      printPost env post showIds st
        = ⟨st.usernames, ⟨st.world.srv, st.world.trace ++
            [Event.printT (postTemplate post (st.usernames.get post.UserId) showIds) post]⟩⟩)
    ∧ (∀ (post : Post) (st : ListState σ) (e : String), st.usernames.get post.UserId = "" →
      (env.c.GetUser post.UserId "" st.world.srv).1 = GoResult.err e →
      printPost env post showIds st
        = ⟨st.usernames, ⟨(env.c.GetUser post.UserId "" st.world.srv).2, st.world.trace ++
            [Event.getUser post.UserId "" (GoResult.err e),
             Event.printT (postTemplate post post.UserId showIds) post]⟩⟩)
    ∧ (∀ (post : Post) (st : ListState σ) (user : User), st.usernames.get post.UserId = "" →
      (env.c.GetUser post.UserId "" st.world.srv).1 = GoResult.ok user →
      printPost env post showIds st
        = ⟨st.usernames.set post.UserId user.Username,
            ⟨(env.c.GetUser post.UserId "" st.world.srv).2, st.world.trace ++
              [Event.getUser post.UserId "" (GoResult.ok user),
               Event.printT (postTemplate post user.Username showIds) post]⟩⟩)
    ∧ (∀ (before : List Post) (post : Post) (between : List Post) (later : Post) (user : User),
      (printAll env showIds before ⟨[], World.init s⟩).usernames.get post.UserId = "" →
      (env.c.GetUser post.UserId ""
        (printAll env showIds before ⟨[], World.init s⟩).world.srv).1 = GoResult.ok user →
      user.Username ≠ "" →
      later.UserId = post.UserId →
      printPost env later showIds
          (printAll env showIds (before ++ post :: between) ⟨[], World.init s⟩)
        = ⟨(printAll env showIds (before ++ post :: between) ⟨[], World.init s⟩).usernames,
            ⟨(printAll env showIds (before ++ post :: between) ⟨[], World.init s⟩).world.srv,
              (printAll env showIds (before ++ post :: between) ⟨[], World.init s⟩).world.trace
                ++ [Event.printT (postTemplate later user.Username showIds) later]⟩⟩)
    ∧ (printAll env showIds posts ⟨[], World.init s⟩).world.trace.Pairwise
        (fun e e' => e.isGetUserFor u = true → e.isUncachedGetUserFor u = false →
          e'.isGetUserFor u = false)
    ∧ (printAll env showIds posts ⟨[], World.init s⟩).world.trace.countP (Event.isGetUserFor u)
        ≤ 1 + (printAll env showIds posts ⟨[], World.init s⟩).world.trace.countP
                (Event.isUncachedGetUserFor u) := by
  refine ⟨fun post st hc => printPost_cached env post showIds st hc,
    fun post st e hc hr => printPost_failed env post showIds st e hc hr,
    fun post st user hc hr => printPost_fetched env post showIds st user hc hr, ?_, ?_⟩
  · intro before post between later user hc hr hname hlater
    have hsplit : printAll env showIds (before ++ post :: between) ⟨[], World.init s⟩
        = printAll env showIds between
            (printPost env post showIds (printAll env showIds before ⟨[], World.init s⟩)) := by
      simp [printAll, List.foldl_append]
    have hafter : (printPost env post showIds
        (printAll env showIds before ⟨[], World.init s⟩)).usernames.get post.UserId
          = user.Username := by
      rw [printPost_fetched env post showIds _ user hc hr]
      simp [StringMap.get_set]
    have hkept : (printAll env showIds (before ++ post :: between)
        ⟨[], World.init s⟩).usernames.get later.UserId = user.Username := by
      rw [hsplit, hlater, printAll_keeps_username env showIds post.UserId between _
        (by rw [hafter]; exact hname), hafter]
    rw [printPost_cached env later showIds _ (by rw [hkept]; exact hname), hkept]
  · obtain ⟨_, hpw, hcnt⟩ := CacheInv_printAll env u showIds posts _ (CacheInv_init u s)
    refine ⟨hpw, ?_⟩
    split_ifs at hcnt <;> omega

/-- Witness of C5 on the sample server: `GetUser` finds alice for the author of
`p1`, and the next post by that author is printed without a call. -/
theorem getUser_cached_after_success_witness :
    (printAll demoEnv false [] ⟨[], World.init 0⟩).usernames.get
        (⟨"p1", "u2", "c1", "", "first"⟩ : Post).UserId = ""
    ∧ (demoEnv.c.GetUser (⟨"p1", "u2", "c1", "", "first"⟩ : Post).UserId ""
        (printAll demoEnv false [] ⟨[], World.init 0⟩).world.srv).1 = GoResult.ok ⟨"alice"⟩
    ∧ (⟨"alice"⟩ : User).Username ≠ ""
    ∧ (⟨"p2", "u2", "c1", "p1", "second"⟩ : Post).UserId
        = (⟨"p1", "u2", "c1", "", "first"⟩ : Post).UserId
    ∧ printPost demoEnv ⟨"p2", "u2", "c1", "p1", "second"⟩ false
          (printAll demoEnv false ([] ++ ⟨"p1", "u2", "c1", "", "first"⟩ :: [])
            ⟨[], World.init 0⟩)
        = ⟨(printAll demoEnv false ([] ++ ⟨"p1", "u2", "c1", "", "first"⟩ :: [])
              ⟨[], World.init 0⟩).usernames,
            ⟨(printAll demoEnv false ([] ++ ⟨"p1", "u2", "c1", "", "first"⟩ :: [])
                ⟨[], World.init 0⟩).world.srv,
              (printAll demoEnv false ([] ++ ⟨"p1", "u2", "c1", "", "first"⟩ :: [])
                  ⟨[], World.init 0⟩).world.trace
                ++ [Event.printT (postTemplate ⟨"p2", "u2", "c1", "p1", "second"⟩
                      (⟨"alice"⟩ : User).Username false)
                    ⟨"p2", "u2", "c1", "p1", "second"⟩]⟩⟩
    ∧ (printAll demoEnv false
          [⟨"p1", "u2", "c1", "", "first"⟩, ⟨"p2", "u2", "c1", "p1", "second"⟩]
          ⟨[], World.init 0⟩).world.srv = 1 :=
  ⟨by decide, by decide, by decide, by decide,
    (getUser_cached_after_success demoEnv false [] 0 "u2").2.2.2.1 []
      ⟨"p1", "u2", "c1", "", "first"⟩ [] ⟨"p2", "u2", "c1", "p1", "second"⟩ ⟨"alice"⟩
      (by decide) (by decide) (by decide) (by decide),
    by decide⟩

/-- C5 fails as stated: on the sample server `GetUser` fails for `u1`, and
printing two posts by `u1` calls `GetUser` for `u1` twice: the trace holds two
calls and the server has served two requests. -/
theorem getUser_called_twice_after_failure :
    ¬ ((printAll demoEnv false
          [⟨"p3", "u1", "c2", "", "third"⟩, ⟨"p4", "u1", "c2", "", "fourth"⟩]
          ⟨[], World.init 0⟩).world.trace.countP (Event.isGetUserFor "u1") ≤ 1)
    ∧ (printAll demoEnv false
          [⟨"p3", "u1", "c2", "", "third"⟩, ⟨"p4", "u1", "c2", "", "fourth"⟩]
          ⟨[], World.init 0⟩).world.srv = 2 := by
  decide

/-! ## Theorems: the follow loop -/

/-- C6, as the code has it: on a received event the follow loop calls `printPost`
when the event's type is `model.WebsocketEventPosted` and the post decoded
from its data has the `ChannelId` of the channel being listed, and then goes
on to the next event; on every other event it prints no post and leaves the
`usernames` cache as it was, and it leaves the outside world as it was too,
except on a posted event whose data fails to decode, where it prints the line
"Error parsing incoming post: " followed by the error. -/
theorem followStep_filters {σ : Type} (env : Env σ) (channel : Channel) (showIds : Bool)
    (event : WebSocketEvent) (st : ListState σ) :
    (∀ post, event.EventType = WebsocketEventPosted →
        eventDataToPost env event.Data = Panicking.done (some post, none) →
        post.ChannelId = channel.Id →
        followStep env channel showIds event st = (none, printPost env post showIds st))
    ∧ (¬ (event.EventType = WebsocketEventPosted
          ∧ ∃ post, eventDataToPost env event.Data = Panicking.done (some post, none)
              ∧ post.ChannelId = channel.Id) →
        printedPosts (followStep env channel showIds event st).2.world.trace
            = printedPosts st.world.trace
          ∧ (followStep env channel showIds event st).2.usernames = st.usernames
          ∧ ((followStep env channel showIds event st).2.world = st.world
              ∨ ∃ e, eventDataToPost env event.Data = Panicking.done (none, some e)
                  ∧ (followStep env channel showIds event st).2.world
                      = st.world.step st.world.srv
                          (Event.println ("Error parsing incoming post: " ++ e)))) := by
  constructor
  · intro post ht hd hch
    simp [followStep, ht, hd, hch]
  · intro hnot
    unfold followStep
    by_cases ht : event.EventType = WebsocketEventPosted
    · simp only [ht, if_true]
      cases hd : eventDataToPost env event.Data with
      | panic m => simp
      | done val =>
        obtain ⟨post, err⟩ := val
        cases post with
        | none =>
          cases err with
          | none => simp
          | some e => simp [World.step, printedPosts, List.filterMap_append]
        | some post =>
          have hne : ¬ post.ChannelId = channel.Id := by
            intro hch
            apply hnot
            refine ⟨ht, post, ?_, hch⟩
            rw [hd]
            unfold eventDataToPost at hd
            split at hd
            · cases hd
            · split at hd
              · cases hd
              · simp only [Panicking.done.injEq, Prod.mk.injEq] at hd
                rw [hd.2]
          cases err with
          | none => simp [hne]
          | some e =>
            exfalso
            unfold eventDataToPost at hd
            split at hd
            · cases hd
            · split at hd
              · simp at hd
              · simp at hd
    · simp [ht]

/-- Witness of C6 on the sample server: a post to the listed channel is handed to
`printPost`, and a typing event changes nothing. -/
theorem followStep_filters_witness :
    ((⟨"posted", [("post", Value.str "c1")]⟩ : WebSocketEvent).EventType = WebsocketEventPosted
      ∧ eventDataToPost demoEnv [("post", Value.str "c1")]
          = Panicking.done (some ⟨"p9", "u2", "c1", "", "hello"⟩, none)
      ∧ (⟨"p9", "u2", "c1", "", "hello"⟩ : Post).ChannelId = (⟨"c1"⟩ : Channel).Id
      ∧ followStep demoEnv ⟨"c1"⟩ false ⟨"posted", [("post", Value.str "c1")]⟩
            ⟨[], World.init 0⟩
          = (none, printPost demoEnv ⟨"p9", "u2", "c1", "", "hello"⟩ false ⟨[], World.init 0⟩))
    ∧ (¬ ((⟨"typing", []⟩ : WebSocketEvent).EventType = WebsocketEventPosted
          ∧ ∃ post, eventDataToPost demoEnv (⟨"typing", []⟩ : WebSocketEvent).Data
                = Panicking.done (some post, none)
              ∧ post.ChannelId = (⟨"c1"⟩ : Channel).Id)
      ∧ (followStep demoEnv ⟨"c1"⟩ false ⟨"typing", []⟩ ⟨[], World.init 0⟩).2.usernames = []) :=
  ⟨⟨by decide, by decide, by decide,
      (followStep_filters demoEnv ⟨"c1"⟩ false ⟨"posted", [("post", Value.str "c1")]⟩
        ⟨[], World.init 0⟩).1 ⟨"p9", "u2", "c1", "", "hello"⟩
        (by decide) (by decide) (by decide)⟩,
    ⟨fun h => absurd h.1 (by decide),
      ((followStep_filters demoEnv ⟨"c1"⟩ false ⟨"typing", []⟩ ⟨[], World.init 0⟩).2
        (fun h => absurd h.1 (by decide))).2.1⟩⟩

/-- C6 fails as stated: on the sample server a posted event without a `post`
entry is not one the loop prints a post for, and yet the loop prints a line
for it, the parse error. -/
theorem followStep_prints_parse_error :
    ¬ ((⟨"posted", []⟩ : WebSocketEvent).EventType = WebsocketEventPosted
        ∧ ∃ post, eventDataToPost demoEnv (⟨"posted", []⟩ : WebSocketEvent).Data
              = Panicking.done (some post, none)
            ∧ post.ChannelId = (⟨"c1"⟩ : Channel).Id)
    ∧ (followStep demoEnv ⟨"c1"⟩ false ⟨"posted", []⟩ ⟨[], World.init 0⟩).2.world.trace
        = [Event.println "Error parsing incoming post: unexpected end of JSON input"]
    ∧ (followStep demoEnv ⟨"c1"⟩ false ⟨"posted", []⟩ ⟨[], World.init 0⟩).2.world.trace
        ≠ (World.init 0 : World Nat).trace := by
  refine ⟨?_, by decide, by decide⟩
  rintro ⟨_, post, h, _⟩
  have hd : eventDataToPost demoEnv (⟨"posted", []⟩ : WebSocketEvent).Data
      = Panicking.done (none, some "unexpected end of JSON input") := by decide
  rw [hd] at h
  simp at h

/-- C9 fails on the code: on a posted event whose data `eventDataToPost` cannot
turn into a post, the follow loop prints the parse error and then reads
`post.ChannelId` of the nil post, which panics; it does not go on to the next
event. -/
theorem followStep_panics_on_parse_error {σ : Type} (env : Env σ) (channel : Channel)
    (showIds : Bool) (event : WebSocketEvent) (st : ListState σ) (e : String)
    (ht : event.EventType = WebsocketEventPosted)
    (hd : eventDataToPost env event.Data = Panicking.done (none, some e)) :
    followStep env channel showIds event st
      = (some "invalid memory address or nil pointer dereference",
          ⟨st.usernames, st.world.step st.world.srv
            (Event.println ("Error parsing incoming post: " ++ e))⟩)
    ∧ ∀ rest, (followLoop env channel showIds (event :: rest) st).1
        = Outcome.panicked "invalid memory address or nil pointer dereference" := by
  have hstep : followStep env channel showIds event st
      = (some "invalid memory address or nil pointer dereference",
          ⟨st.usernames, st.world.step st.world.srv
            (Event.println ("Error parsing incoming post: " ++ e))⟩) := by
    simp [followStep, ht, hd]
  refine ⟨hstep, fun rest => ?_⟩
  rw [followLoop, hstep]

/-- Witness of the C9 failure on the sample server: listing `team:town` with
`--follow`, a posted event without a `post` entry arrives, then a valid post
to the channel; the run panics on the first and never prints the second. -/
theorem followStep_panics_on_parse_error_witness :
    ((⟨"posted", []⟩ : WebSocketEvent).EventType = WebsocketEventPosted
      ∧ eventDataToPost demoEnv (⟨"posted", []⟩ : WebSocketEvent).Data
          = Panicking.done (none, some "unexpected end of JSON input")
      ∧ (followLoop demoEnv ⟨"c1"⟩ false
            [⟨"posted", []⟩, ⟨"posted", [("post", Value.str "c1")]⟩] ⟨[], World.init 0⟩).1
          = Outcome.panicked "invalid memory address or nil pointer dereference")
    ∧ (postListCmdF demoEnv ⟨20, false, true⟩ "team:town"
          [⟨"posted", []⟩, ⟨"posted", [("post", Value.str "c1")]⟩] (World.init 0)).1
        = Outcome.panicked "invalid memory address or nil pointer dereference"
    ∧ printedPosts (postListCmdF demoEnv ⟨20, false, true⟩ "team:town"
          [⟨"posted", []⟩, ⟨"posted", [("post", Value.str "c1")]⟩] (World.init 0)).2.world.trace
        = [⟨"p2", "u2", "c1", "p1", "second"⟩, ⟨"p1", "u2", "c1", "", "first"⟩] :=
  ⟨⟨by decide, by decide,
      (followStep_panics_on_parse_error demoEnv ⟨"c1"⟩ false ⟨"posted", []⟩
        ⟨[], World.init 0⟩ "unexpected end of JSON input" (by decide) (by decide)).2
        [⟨"posted", [("post", Value.str "c1")]⟩]⟩,
    by decide, by decide⟩

end Mmctl
